import Mathlib

/-!
Verification of the OLA RDM responder-test definitions against their
natural-language specification.

The Python sources embedded here are:
  * `src/python/ola/RDMConstants.py` — the protocol constant tables and the
    `_ReverseDict` helper;
  * `src/tools/rdm/TestDefinitions.py` — the responder test fixtures.

Python dictionaries are modelled as association lists with last-write-wins
insertion, matching `dict.__setitem__`.  Machine integers are `Nat` (all the
values involved are small non-negative constants).  Fallible operations
(list indexing, attribute access) return `Option` / `Except`.
-/

namespace RDMConstants

/-- Model of a Python dict write `d[k] = v`: replace the first (in a dict,
the only) binding of `k` in place, keeping its position, otherwise append the
new binding — matching CPython insertion-order semantics. -/
def dictInsert : List (Nat × String) → Nat → String → List (Nat × String)
  | [], k, v => [(k, v)]
  | p :: rest, k, v =>
    if p.1 == k then (k, v) :: rest else p :: dictInsert rest k v

/-- Model of a Python dict read `d[k]` / `d.get(k)` on the reverse table. -/
def dictLookup (d : List (Nat × String)) (k : Nat) : Option String :=
  (d.find? (fun p => p.1 == k)).map (fun p => p.2)

/-- Model of a Python dict read on a forward (name → code) table. -/
def forwardLookup (d : List (String × Nat)) (k : String) : Option Nat :=
  (d.find? (fun p => p.1 == k)).map (fun p => p.2)

/-- Membership test `k in d` for a reverse table. -/
def dictContains (d : List (Nat × String)) (k : Nat) : Bool :=
  d.any (fun p => p.1 == k)

/-- `_ReverseDict` from `RDMConstants.py`: iterate over the `(key, value)`
pairs of the input and write `output[value] = key`. -/
def _ReverseDict (input : List (String × Nat)) : List (Nat × String) :=
  input.foldl (fun output kv => dictInsert output kv.2 kv.1) []

def RDM_ZERO_FOOTPRINT_DMX_ADDRESS : Nat := 0xFFFF

def RDM_MANUFACTURER_PID_MIN : Nat := 0x8000
def RDM_MANUFACTURER_PID_MAX : Nat := 0xFFDF

def RDM_MANUFACTURER_SD_MIN : Nat := 0x8000
def RDM_MANUFACTURER_SD_MAX : Nat := 0xFFDF

def SENSOR_TYPES : List (String × Nat) := [
  ("SENSOR_TEMPERATURE", 0x00),
  ("SENSOR_VOLTAGE", 0x01),
  ("SENSOR_CURRENT", 0x02),
  ("SENSOR_FREQUENCY", 0x03),
  ("SENSOR_RESISTANCE", 0x04),
  ("SENSOR_POWER", 0x05),
  ("SENSOR_MASS", 0x06),
  ("SENSOR_LENGTH", 0x07),
  ("SENSOR_AREA", 0x08),
  ("SENSOR_VOLUME", 0x09),
  ("SENSOR_DENSITY", 0x0A),
  ("SENSOR_VELOCITY", 0x0B),
  ("SENSOR_ACCELERATION", 0x0C),
  ("SENSOR_FORCE", 0x0D),
  ("SENSOR_ENERGY", 0x0E),
  ("SENSOR_PRESSURE", 0x0F),
  ("SENSOR_TIME", 0x10),
  ("SENSOR_ANGLE", 0x11),
  ("SENSOR_POSITION_X", 0x12),
  ("SENSOR_POSITION_Y", 0x13),
  ("SENSOR_POSITION_Z", 0x14),
  ("SENSOR_ANGULAR_VELOCITY", 0x15),
  ("SENSOR_LUMINOUS_INTENSITY", 0x16),
  ("SENSOR_LUMINOUS_FLUX", 0x17),
  ("SENSOR_ILLUMINANCE", 0x18),
  ("SENSOR_CHROMINANCE_RED", 0x19),
  ("SENSOR_CHROMINANCE_GREEN", 0x1A),
  ("SENSOR_CHROMINANCE_BLUE", 0x1B),
  ("SENSOR_CONTACTS", 0x1C),
  ("SENSOR_MEMORY", 0x1D),
  ("SENSOR_ITEMS", 0x1E),
  ("SENSOR_HUMIDITY", 0x1F),
  ("SENSOR_COUNTER_16BIT", 0x20),
  ("SENSOR_OTHER", 0x7F)]

def SENSOR_TYPE_TO_NAME : List (Nat × String) := _ReverseDict SENSOR_TYPES

def UNITS : List (String × Nat) := [
  ("UNITS_NONE", 0x00),
  ("UNITS_CENTIGRADE", 0x01),
  ("UNITS_VOLTS_DC", 0x02),
  ("UNITS_VOLTS_AC_PEAK", 0x03),
  ("UNITS_VOLTS_AC_RMS", 0x04),
  ("UNITS_AMPERE_DC", 0x05),
  ("UNITS_AMPERE_AC_PEAK", 0x06),
  ("UNITS_AMPERE_AC_RMS", 0x07),
  ("UNITS_HERTZ", 0x08),
  ("UNITS_OHM", 0x09),
  ("UNITS_WATT", 0x0A),
  ("UNITS_KILOGRAM", 0x0B),
  ("UNITS_METERS", 0x0C),
  ("UNITS_METERS_SQUARED", 0x0D),
  ("UNITS_METERS_CUBED", 0x0E),
  ("UNITS_KILOGRAMMES_PER_METER_CUBED", 0x0F),
  ("UNITS_METERS_PER_SECOND", 0x10),
  ("UNITS_METERS_PER_SECOND_SQUARED", 0x11),
  ("UNITS_NEWTON", 0x12),
  ("UNITS_JOULE", 0x13),
  ("UNITS_PASCAL", 0x14),
  ("UNITS_SECOND", 0x15),
  ("UNITS_DEGREE", 0x16),
  ("UNITS_STERADIAN", 0x17),
  ("UNITS_CANDELA", 0x18),
  ("UNITS_LUMEN", 0x19),
  ("UNITS_LUX", 0x1A),
  ("UNITS_IRE", 0x1B),
  ("UNITS_BYTE", 0x1C)]

def UNIT_TO_NAME : List (Nat × String) := _ReverseDict UNITS

def PREFIXES : List (String × Nat) := [
  ("PREFIX_NONE", 0x00),
  ("PREFIX_DECI", 0x01),
  ("PREFIX_CENTI", 0x02),
  ("PREFIX_MILLI", 0x03),
  ("PREFIX_MICRO", 0x04),
  ("PREFIX_NANO", 0x05),
  ("PREFIX_PICO", 0x06),
  ("PREFIX_FEMPTO", 0x07),
  ("PREFIX_ATTO", 0x08),
  ("PREFIX_ZEPTO", 0x09),
  ("PREFIX_YOCTO", 0x0A),
  ("PREFIX_DECA", 0x11),
  ("PREFIX_HECTO", 0x12),
  ("PREFIX_KILO", 0x13),
  ("PREFIX_MEGA", 0x14),
  ("PREFIX_GIGA", 0x15),
  ("PREFIX_TERRA", 0x16),
  ("PREFIX_PETA", 0x17),
  ("PREFIX_EXA", 0x18),
  ("PREFIX_ZETTA", 0x19),
  ("PREFIX_YOTTA", 0x1A)]

def PREFIX_TO_NAME : List (Nat × String) := _ReverseDict PREFIXES

def PRODUCT_CATEGORIES : List (String × Nat) := [
  ("PRODUCT_CATEGORY_NOT_DECLARED", 0x0000),
  ("PRODUCT_CATEGORY_FIXTURE", 0x0100),
  ("PRODUCT_CATEGORY_FIXTURE_FIXED", 0x0101),
  ("PRODUCT_CATEGORY_FIXTURE_MOVING_YOKE", 0x0102),
  ("PRODUCT_CATEGORY_FIXTURE_MOVING_MIRROR", 0x0103),
  ("PRODUCT_CATEGORY_FIXTURE_OTHER", 0x01FF),
  ("PRODUCT_CATEGORY_FIXTURE_ACCESSORY", 0x0200),
  ("PRODUCT_CATEGORY_FIXTURE_ACCESSORY_COLOR", 0x0201),
  ("PRODUCT_CATEGORY_FIXTURE_ACCESSORY_YOKE", 0x0202),
  ("PRODUCT_CATEGORY_FIXTURE_ACCESSORY_MIRROR", 0x0203),
  ("PRODUCT_CATEGORY_FIXTURE_ACCESSORY_EFFECT", 0x0204),
  ("PRODUCT_CATEGORY_FIXTURE_ACCESSORY_BEAM", 0x0205),
  ("PRODUCT_CATEGORY_FIXTURE_ACCESSORY_OTHER", 0x02FF),
  ("PRODUCT_CATEGORY_PROJECTOR", 0x0300),
  ("PRODUCT_CATEGORY_PROJECTOR_FIXED", 0x0301),
  ("PRODUCT_CATEGORY_PROJECTOR_MOVING_YOKE", 0x0302),
  ("PRODUCT_CATEGORY_PROJECTOR_MOVING_MIRROR", 0x0303),
  ("PRODUCT_CATEGORY_PROJECTOR_OTHER", 0x03FF),
  ("PRODUCT_CATEGORY_ATMOSPHERIC", 0x0400),
  ("PRODUCT_CATEGORY_ATMOSPHERIC_EFFECT", 0x0401),
  ("PRODUCT_CATEGORY_ATMOSPHERIC_PYRO", 0x0402),
  ("PRODUCT_CATEGORY_ATMOSPHERIC_OTHER", 0x04FF),
  ("PRODUCT_CATEGORY_DIMMER", 0x0500),
  ("PRODUCT_CATEGORY_DIMMER_AC_INCANDESCENT", 0x0501),
  ("PRODUCT_CATEGORY_DIMMER_AC_FLUORESCENT", 0x0502),
  ("PRODUCT_CATEGORY_DIMMER_AC_COLDCATHODE", 0x0503),
  ("PRODUCT_CATEGORY_DIMMER_AC_NONDIM", 0x0504),
  ("PRODUCT_CATEGORY_DIMMER_AC_ELV", 0x0505),
  ("PRODUCT_CATEGORY_DIMMER_AC_OTHER", 0x0506),
  ("PRODUCT_CATEGORY_DIMMER_DC_LEVEL", 0x0507),
  ("PRODUCT_CATEGORY_DIMMER_DC_PWM", 0x0508),
  ("PRODUCT_CATEGORY_DIMMER_CS_LED", 0x0509),
  ("PRODUCT_CATEGORY_DIMMER_OTHER", 0x05FF),
  ("PRODUCT_CATEGORY_POWER", 0x0600),
  ("PRODUCT_CATEGORY_POWER_CONTROL", 0x0601),
  ("PRODUCT_CATEGORY_POWER_SOURCE", 0x0602),
  ("PRODUCT_CATEGORY_POWER_OTHER", 0x06FF),
  ("PRODUCT_CATEGORY_SCENIC", 0x0700),
  ("PRODUCT_CATEGORY_SCENIC_DRIVE", 0x0701),
  ("PRODUCT_CATEGORY_SCENIC_OTHER", 0x07FF),
  ("PRODUCT_CATEGORY_DATA", 0x0800),
  ("PRODUCT_CATEGORY_DATA_DISTRIBUTION", 0x0801),
  ("PRODUCT_CATEGORY_DATA_CONVERSION", 0x0802),
  ("PRODUCT_CATEGORY_DATA_OTHER", 0x08FF),
  ("PRODUCT_CATEGORY_AV", 0x0900),
  ("PRODUCT_CATEGORY_AV_AUDIO", 0x0901),
  ("PRODUCT_CATEGORY_AV_VIDEO", 0x0902),
  ("PRODUCT_CATEGORY_AV_OTHER", 0x09FF),
  ("PRODUCT_CATEGORY_MONITOR", 0x0A00),
  ("PRODUCT_CATEGORY_MONITOR_ACLINEPOWER", 0x0A01),
  ("PRODUCT_CATEGORY_MONITOR_DCPOWER", 0x0A02),
  ("PRODUCT_CATEGORY_MONITOR_ENVIRONMENTAL", 0x0A03),
  ("PRODUCT_CATEGORY_MONITOR_OTHER", 0x0AFF),
  ("PRODUCT_CATEGORY_CONTROL", 0x7000),
  ("PRODUCT_CATEGORY_CONTROL_CONTROLLER", 0x7001),
  ("PRODUCT_CATEGORY_CONTROL_BACKUPDEVICE", 0x7002),
  ("PRODUCT_CATEGORY_CONTROL_OTHER", 0x70FF),
  ("PRODUCT_CATEGORY_TEST", 0x7100),
  ("PRODUCT_CATEGORY_TEST_EQUIPMENT", 0x7101),
  ("PRODUCT_CATEGORY_TEST_EQUIPMENT_OTHER", 0x71FF),
  ("PRODUCT_CATEGORY_OTHER", 0x7FFF)]

def PRODUCT_CATEGORY_TO_NAME : List (Nat × String) :=
  _ReverseDict PRODUCT_CATEGORIES

def PRODUCT_DETAIL_IDS : List (String × Nat) := [
  ("PRODUCT_DETAIL_NOT_DECLARED", 0x0000),
  ("PRODUCT_DETAIL_ARC", 0x0001),
  ("PRODUCT_DETAIL_METAL_HALIDE", 0x0002),
  ("PRODUCT_DETAIL_INCANDESCENT", 0x0003),
  ("PRODUCT_DETAIL_LED", 0x0004),
  ("PRODUCT_DETAIL_FLUROESCENT", 0x0005),
  ("PRODUCT_DETAIL_COLDCATHODE", 0x0006),
  ("PRODUCT_DETAIL_ELECTROLUMINESCENT", 0x0007),
  ("PRODUCT_DETAIL_LASER", 0x0008),
  ("PRODUCT_DETAIL_FLASHTUBE", 0x0009),
  ("PRODUCT_DETAIL_COLORSCROLLER", 0x0100),
  ("PRODUCT_DETAIL_COLORWHEEL", 0x0101),
  ("PRODUCT_DETAIL_COLORCHANGE", 0x0102),
  ("PRODUCT_DETAIL_IRIS_DOUSER", 0x0103),
  ("PRODUCT_DETAIL_DIMMING_SHUTTER", 0x0104),
  ("PRODUCT_DETAIL_PROFILE_SHUTTER", 0x0105),
  ("PRODUCT_DETAIL_BARNDOOR_SHUTTER", 0x0106),
  ("PRODUCT_DETAIL_EFFECTS_DISC", 0x0107),
  ("PRODUCT_DETAIL_GOBO_ROTATOR", 0x0108),
  ("PRODUCT_DETAIL_VIDEO", 0x0200),
  ("PRODUCT_DETAIL_SLIDE", 0x0201),
  ("PRODUCT_DETAIL_FILM", 0x0202),
  ("PRODUCT_DETAIL_OILWHEEL", 0x0203),
  ("PRODUCT_DETAIL_LCDGATE", 0x0204),
  ("PRODUCT_DETAIL_FOGGER_GLYCOL", 0x0300),
  ("PRODUCT_DETAIL_FOGGER_MINERALOIL", 0x0301),
  ("PRODUCT_DETAIL_FOGGER_WATER", 0x0302),
  ("PRODUCT_DETAIL_CO2", 0x0303),
  ("PRODUCT_DETAIL_LN2", 0x0304),
  ("PRODUCT_DETAIL_BUBBLE", 0x0305),
  ("PRODUCT_DETAIL_FLAME_PROPANE", 0x0306),
  ("PRODUCT_DETAIL_FLAME_OTHER", 0x0307),
  ("PRODUCT_DETAIL_OLEFACTORY_STIMULATOR", 0x0308),
  ("PRODUCT_DETAIL_SNOW", 0x0309),
  ("PRODUCT_DETAIL_WATER_JET", 0x030A),
  ("PRODUCT_DETAIL_WIND", 0x030B),
  ("PRODUCT_DETAIL_CONFETTI", 0x030C),
  ("PRODUCT_DETAIL_HAZARD", 0x030D),
  ("PRODUCT_DETAIL_PHASE_CONTROL", 0x0400),
  ("PRODUCT_DETAIL_REVERSE_PHASE_CONTROL", 0x0401),
  ("PRODUCT_DETAIL_SINE", 0x0402),
  ("PRODUCT_DETAIL_PWM", 0x0403),
  ("PRODUCT_DETAIL_DC", 0x0404),
  ("PRODUCT_DETAIL_HFBALLAST", 0x0405),
  ("PRODUCT_DETAIL_HFHV_NEONBALLAST", 0x0406),
  ("PRODUCT_DETAIL_HFHV_EL", 0x0407),
  ("PRODUCT_DETAIL_MHR_BALLAST", 0x0408),
  ("PRODUCT_DETAIL_BITANGLE_MODULATION", 0x0409),
  ("PRODUCT_DETAIL_FREQUENCY_MODULATION", 0x040A),
  ("PRODUCT_DETAIL_HIGHFREQUENCY_12V", 0x040B),
  ("PRODUCT_DETAIL_RELAY_MECHANICAL", 0x040C),
  ("PRODUCT_DETAIL_RELAY_ELECTRONIC", 0x040D),
  ("PRODUCT_DETAIL_SWITCH_ELECTRONIC", 0x040E),
  ("PRODUCT_DETAIL_CONTACTOR", 0x040F),
  ("PRODUCT_DETAIL_MIRRORBALL_ROTATOR", 0x0500),
  ("PRODUCT_DETAIL_OTHER_ROTATOR", 0x0501),
  ("PRODUCT_DETAIL_KABUKI_DROP", 0x0502),
  ("PRODUCT_DETAIL_CURTAIN", 0x0503),
  ("PRODUCT_DETAIL_LINESET", 0x0504),
  ("PRODUCT_DETAIL_MOTOR_CONTROL", 0x0505),
  ("PRODUCT_DETAIL_DAMPER_CONTROL", 0x0506),
  ("PRODUCT_DETAIL_SPLITTER", 0x0600),
  ("PRODUCT_DETAIL_ETHERNET_NODE", 0x0601),
  ("PRODUCT_DETAIL_MERGE", 0x0602),
  ("PRODUCT_DETAIL_DATAPATCH", 0x0603),
  ("PRODUCT_DETAIL_WIRELESS_LINK", 0x0604),
  ("PRODUCT_DETAIL_PROTOCOL_CONVERTOR", 0x0701),
  ("PRODUCT_DETAIL_ANALOG_DEMULTIPLEX", 0x0702),
  ("PRODUCT_DETAIL_ANALOG_MULTIPLEX", 0x0703),
  ("PRODUCT_DETAIL_SWITCH_PANEL", 0x0704),
  ("PRODUCT_DETAIL_ROUTER", 0x0800),
  ("PRODUCT_DETAIL_FADER", 0x0801),
  ("PRODUCT_DETAIL_MIXER", 0x0802),
  ("PRODUCT_DETAIL_CHANGEOVER_MANUAL", 0x0900),
  ("PRODUCT_DETAIL_CHANGEOVER_AUTO", 0x0901),
  ("PRODUCT_DETAIL_TEST", 0x0902),
  ("PRODUCT_DETAIL_GFI_RCD", 0x0A00),
  ("PRODUCT_DETAIL_BATTERY", 0x0A01),
  ("PRODUCT_DETAIL_CONTROLLABLE_BREAKER", 0x0A02),
  ("PRODUCT_DETAIL_OTHER", 0x7FFF)]

def PRODUCT_DETAIL_IDS_TO_NAME : List (Nat × String) :=
  _ReverseDict PRODUCT_DETAIL_IDS

def SLOT_TYPES : List (String × Nat) := [
  ("ST_PRIMARY", 0x00),
  ("ST_SEC_FINE", 0x01),
  ("ST_SEC_TIMING", 0x02),
  ("ST_SEC_SPEED", 0x03),
  ("ST_SEC_CONTROL", 0x04),
  ("ST_SEC_INDEX", 0x05),
  ("ST_SEC_ROTATION", 0x06),
  ("ST_SEC_INDEX_ROTATE", 0x07),
  ("ST_SEC_UNDEFINED", 0xFF)]

def SLOT_TYPE_TO_NAME : List (Nat × String) := _ReverseDict SLOT_TYPES

/-- The raw `SLOT_DEFINITIONS` table from `RDMConstants.py`, entry by entry in
source order.  The boolean records the surface syntax of each entry: `false`
for the dict-literal form `'NAME': code,` and `true` for the stray assignment
form `'NAME' = code,` that appears on three lines of the source (which is not
valid Python inside a dict literal). -/
def SLOT_DEFINITIONS_SRC : List (String × Nat × Bool) := [
  ("SD_INTENSITY", 0x0001, false),
  ("SD_INTENSITY_MASTER", 0x0002, false),
  ("SD_PAN", 0x0101, false),
  ("SD_TILT", 0x0102, false),
  ("SD_COLOR_WHEEL", 0x0201, false),
  ("SD_COLOR_SUB_CYAN", 0x0202, false),
  ("SD_COLOR_SUB_YELLOW", 0x0203, false),
  ("SD_COLOR_SUB_MAGENTA", 0x0204, false),
  ("SD_COLOR_ADD_RED", 0x0205, false),
  ("SD_COLOR_ADD_GREEN", 0x0206, false),
  ("SD_COLOR_ADD_BLUE", 0x0207, false),
  ("SD_COLOR_CORRECTION", 0x0208, false),
  ("SD_COLOR_SCROLL", 0x0209, false),
  ("SD_COLOR_SEMAPHORE", 0x0210, false),
  ("SD_STATIC_GOBO_WHEEL", 0x0301, false),
  ("SD_ROTO_GOBO_WHEEL", 0x0302, false),
  ("SD_PRISM_WHEEL", 0x0303, false),
  ("SD_EFFECTS_WHEEL", 0x0304, false),
  ("SD_BEAM_SIZE_IRIS", 0x0401, false),
  ("SD_EDGE", 0x0402, false),
  ("SD_FROST", 0x0403, false),
  ("SD_STROBE", 0x0404, false),
  ("SD_ZOOM", 0x0405, false),
  ("SD_FRAMING_SHUTTER", 0x0406, false),
  ("SD_SHUTTER_ROTATE", 0x0407, false),
  ("SD_DOUSER", 0x0408, false),
  ("SD_BARN_DOOR", 0x0409, false),
  ("SD_LAMP_CONTROL", 0x0501, false),
  ("SD_FIXTURE_CONTROL", 0x0502, false),
  ("SD_FIXTURE_SPEED", 0x0503, false),
  ("SD_MACRO", 0x0504, false),
  ("SD_POWER_CONTROL", 0x0505, true),
  ("SD_FAN_CONTROL", 0x0506, true),
  ("SD_HEATER_CONTROL", 0x0507, true),
  ("SD_UNDEFINED", 0xFFFF, false)]

/-- The `(name, code)` pairs of `SLOT_DEFINITIONS`, with the surface-syntax
flag dropped. -/
def SLOT_DEFINITIONS : List (String × Nat) :=
  SLOT_DEFINITIONS_SRC.map (fun e => (e.1, e.2.1))

def SLOT_DEFINITION_TO_NAME : List (Nat × String) :=
  _ReverseDict SLOT_DEFINITIONS

def PRESET_PROGRAMMED : List (String × Nat) := [
  ("PRESET_NOT_PROGRAMMED", 0x00),
  ("PRESET_PROGRAMMED", 0x01),
  ("PRESET_PROGRAMMED_READ_ONLY", 0x02)]

def PRESET_PROGRAMMER_TO_NAME : List (Nat × String) :=
  _ReverseDict PRESET_PROGRAMMED

def MERGE_MODE : List (String × Nat) := [
  ("MERGEMODE_DEFAULT", 0x00),
  ("MERGEMODE_HTP", 0x01),
  ("MERGEMODE_LTP", 0x02),
  ("MERGEMODE_DMX_ONLY", 0x03),
  ("MERGEMODE_OTHER", 0xFF)]

def MERGE_MODE_TO_NAME : List (Nat × String) := _ReverseDict MERGE_MODE

/-- An injective-in-practice numeric key for a name: the positional base-
`0x110000` encoding of its characters (every `Char.toNat` is below
`0x110000`), prefixed with a leading 1.  Only the trivial direction is ever
used in proofs — distinct keys certify distinct names — so no injectivity
argument is needed; the encoding merely makes the duplicate check run on
kernel-accelerated `Nat` comparisons instead of character-by-character
string comparisons. -/
def strKey (s : String) : Nat :=
  s.data.foldl (fun a c => a * 1114112 + c.toNat) 1

/-- `true` when no element of the list occurs twice. -/
def natsNodup : List Nat → Bool
  | [] => true
  | x :: rest => !(rest.contains x) && natsNodup rest

/-- Validity of one constant table with respect to its reverse table: every
`(name, code)` pair round-trips through the forward table and through the
reverse table, and no two names share a code. -/
def tableBijectiveP (t : List (String × Nat)) (rev : List (Nat × String)) :
    Prop :=
  (∀ nc ∈ t, forwardLookup t nc.1 = some nc.2 ∧
    dictLookup rev nc.2 = some nc.1) ∧
  (t.map (fun nc => nc.2)).Nodup

/-- The `(name, code)` pairs of `SLOT_DEFINITIONS` whose source lines use the
stray assignment syntax `'NAME' = code,` instead of the dict-literal
`'NAME': code,`. -/
def slotDefinitionsAssignEntries : List (String × Nat) :=
  (SLOT_DEFINITIONS_SRC.filter (fun e => e.2.2)).map (fun e => (e.1, e.2.1))

end RDMConstants


namespace TestDefinitions

def MAX_DMX_ADDRESS : Nat := 512
def MAX_LABEL_SIZE : Nat := 32
def MAX_PERSONALITY_NUMBER : Nat := 255

/-- `GetSupportedParameters.BANNED_PID_VALUES`: pid values that must not
appear in the supported-parameter list (they are used for discovery). -/
def BANNED_PID_VALUES : List Nat := [1, 2, 3]

/-- One iteration of the loop over `fields['params']` in
`GetSupportedParameters.VerifyResult`: given the accumulated
`(supported_parameters, manufacturer_parameters)` lists and the next
`param_id`, skip it when it is banned or mandatory (the warning/advisory it
emits there is irrelevant to the lists), otherwise append it to
`supported_parameters`, and also to `manufacturer_parameters` exactly when
`param_id >= 0x8000 and param_id < 0xffe0`. -/
def supportedParamStep (bannedPidValues mandatoryPidValues : List Nat)
    (acc : List Nat × List Nat) (paramId : Nat) : List Nat × List Nat :=
  if bannedPidValues.contains paramId then acc
  else if mandatoryPidValues.contains paramId then acc
  else
    (acc.1 ++ [paramId],
     if 0x8000 ≤ paramId ∧ paramId < 0xffe0 then acc.2 ++ [paramId]
     else acc.2)

/-- The `(supported_parameters, manufacturer_parameters)` pair that
`GetSupportedParameters.VerifyResult` computes from the acked response's
`params` field, starting from the two empty lists. -/
def classifySupportedParams (bannedPidValues mandatoryPidValues
    paramIds : List Nat) : List Nat × List Nat :=
  paramIds.foldl (supportedParamStep bannedPidValues mandatoryPidValues)
    ([], [])

/-- Outcome of the `FindSubDevices` action chain. -/
inductive FSDOutcome where
  | notRun (msg : String) (indices : List Nat)
  | passed (indices : List Nat)
  | failed (msg : String)
  deriving DecidableEq

/-- `FindSubDevices._CheckForSubDevice`, run to completion against a
responder.  `resp i = true` means the DEVICE_INFO GET to sub-device `i` is
acked (so `VerifyResult` appends `i` to `self._sub_devices`), `false` means
it is nacked with `NR_SUB_DEVICE_OUT_OF_RANGE`; either way the registered
`action` re-enters `_CheckForSubDevice`.  `maxValid` is
`PidStore.MAX_VALID_SUB_DEVICE`.  The second component of the result lists
the sub-device indices queried, in order. -/
def _CheckForSubDevice (maxValid deviceCount : Nat) (resp : Nat → Bool)
    (subDevices : List Nat) (currentIndex : Nat) : FSDOutcome × List Nat :=
  if subDevices.length = deviceCount then
    if deviceCount = 0 then
      (FSDOutcome.notRun " No sub devices declared" subDevices, [])
    else
      (FSDOutcome.passed subDevices, [])
  else if maxValid ≤ currentIndex then
    (FSDOutcome.failed ("Only found " ++ toString subDevices.length ++
      " of " ++ toString deviceCount ++ " sub devices"), [])
  else
    let i := currentIndex + 1
    let subDevices' := if resp i then subDevices ++ [i] else subDevices
    let r := _CheckForSubDevice maxValid deviceCount resp subDevices' i
    (r.1, i :: r.2)
  termination_by maxValid - currentIndex
  decreasing_by omega

/-- `FindSubDevices.Test`: read the `sub_device_count` fact and start the
chain with no sub devices found and `self._current_index = 0`. -/
def FindSubDevicesTest (maxValid subDeviceCount : Nat) (resp : Nat → Bool) :
    FSDOutcome × List Nat :=
  _CheckForSubDevice maxValid subDeviceCount resp [] 0

/-- Outcome of the `GetPersonalities` action chain. -/
inductive GPOutcome where
  | notRun (msg : String) (personalities : List Nat)
  | passed (personalities : List Nat)
  | failed (msg : String)
  | unexpectedResponse (atIndex : Nat)
  deriving DecidableEq

/-- `GetPersonalities._GetPersonality`, run to completion.  `resp i = true`
means the `DMX_PERSONALITY_DESCRIPTION` GET for personality `i` is acked (so
`VerifyResult` appends the response fields — represented by the index `i` —
and the `action` re-enters `_GetPersonality`).  The only registered expected
result is an ack, so on any other response the expectation matcher fails the
test; that branch (`unexpectedResponse`, the matcher lives outside `src/`)
is modelled from the spec: "If no pattern's response-class matches the
actual response, the test fails with unexpected response" (§4.4). -/
def _GetPersonality (personalityCount : Nat) (resp : Nat → Bool)
    (personalities : List Nat) (currentIndex : Nat) : GPOutcome :=
  let i := currentIndex + 1
  if personalityCount < i then
    if personalityCount = 0 then
      GPOutcome.notRun " No personalities declared" personalities
    else
      GPOutcome.passed personalities
  else if MAX_PERSONALITY_NUMBER ≤ i then
    GPOutcome.failed "Could not find all personalities"
  else if resp i then
    _GetPersonality personalityCount resp (personalities ++ [i]) i
  else
    GPOutcome.unexpectedResponse i
  termination_by personalityCount - currentIndex
  decreasing_by omega

/-- `GetPersonalities.Test`: read the `personality_count` fact and start with
`self._personalities = []`, `self._current_index = 0`. -/
def GetPersonalitiesTest (personalityCount : Nat) (resp : Nat → Bool) :
    GPOutcome :=
  _GetPersonality personalityCount resp [] 0

/-- The selection of `self.new_language` performed by `SetLanguage.Test` from
the `languages_capabilities` fact (`available_langugages`, spelt as in the
source) and the `language` fact.  Python list indexing
`available_langugages[k]` is modelled by `List.get?`, which returns `none`
exactly when Python raises `IndexError`. -/
def setLanguageNewLanguage (availableLangugages : List String)
    (language : String) : Option String :=
  if availableLangugages.isEmpty then
    some "en"
  else if 1 < availableLangugages.length then
    match availableLangugages.get? 0 with
    | none => none
    | some l0 =>
      if l0 = language then availableLangugages.get? 2 else some l0
  else
    availableLangugages.get? 0

/-- Effect of a `VerifyResult` body on the test verdict. -/
inductive VerifyEffect where
  | ok
  | warning (msg : String)
  | failed (msg : String)
  deriving DecidableEq

/-- `GetProxiedDeviceCount.VerifyResult`: on an acked response, compare the
`device_count` field against the `proxied_devices` fact (`none` when
`PROXIED_DEVICES` was not acked); with `list_changed` clear, a count that
differs from the list length calls `SetFailed`. -/
def proxiedDeviceCountVerifyResult (wasAcked : Bool)
    (proxiedDevices : Option (List Nat)) (listChanged : Bool)
    (deviceCount : Nat) : VerifyEffect :=
  if !wasAcked then
    VerifyEffect.ok
  else
    match proxiedDevices with
    | none =>
      VerifyEffect.warning
        "PROXIED_DEVICE_COUNT ack\x27ed but PROXIED_DEVICES didn\x27t"
    | some devices =>
      if !listChanged then
        if deviceCount ≠ devices.length then
          VerifyEffect.failed
            "Proxied device count doesn\x27t match number of devices returned"
        else VerifyEffect.ok
      else VerifyEffect.ok

/-- `GetSensorValues._CheckValueWithinRange`: a sensor value outside the
sensor's own declared range only adds a warning. -/
def _CheckValueWithinRange (value min max : Int) : VerifyEffect :=
  if value < min ∨ max < value then
    VerifyEffect.warning "value not within range"
  else VerifyEffect.ok

/-- A property store snapshot: fact name → value. -/
def PropertyStore : Type := String → Option String

/-- `self.Property(name)`: read a fact from the property store. -/
def Property (store : PropertyStore) (name : String) : Option String :=
  store name

/-- `SetDeviceLabel.OldValue`: the body evaluates
`self.Property('device_label')` as a bare expression statement, discarding
the result, and falls off the end, so the method returns Python `None`. -/
def SetDeviceLabel.OldValue (store : PropertyStore) : Option String :=
  let _discarded := Property store "device_label"
  none

/-- `SetFullSizeDeviceLabel.OldValue`: same discarded-lookup body. -/
def SetFullSizeDeviceLabel.OldValue (store : PropertyStore) : Option String :=
  let _discarded := Property store "device_label"
  none

/-- `SetNonAsciiDeviceLabel.OldValue`: same discarded-lookup body. -/
def SetNonAsciiDeviceLabel.OldValue (store : PropertyStore) : Option String :=
  let _discarded := Property store "device_label"
  none

/-- `SetEmptyDeviceLabel.OldValue`: same discarded-lookup body. -/
def SetEmptyDeviceLabel.OldValue (store : PropertyStore) : Option String :=
  let _discarded := Property store "device_label"
  none

/-- `SetOversizedDeviceLabel.OldValue`: same discarded-lookup body. -/
def SetOversizedDeviceLabel.OldValue (store : PropertyStore) : Option String :=
  let _discarded := Property store "device_label"
  none

/-- A concrete property store holding a `device_label` fact. -/
def sampleLabelStore : PropertyStore :=
  fun name => if name = "device_label" then some "old label" else none

namespace GetSlotDescriptions

/-- The Python attribute environment of a `GetSlotDescriptions` instance.
`Test` assigns only `self._slots`; no method of the class assigns
`self._current_index`, so that attribute read is modelled as an `Option`
that is `none` unless some method of the class assigned it.
Modelled from the spec: the base fixture classes (`ResponderTestFixture` /
`OptionalParameterTestFixture`, which live outside `src/`) are described in
§4.5 as a state machine over the expectation list and the property store and
declare no `_current_index` attribute, so an unassigned read of it raises
`AttributeError`. -/
structure Fixture where
  slotsAttr : Option (List Nat)
  currentIndexAttr : Option Nat
  deriving DecidableEq

/-- `GetSlotDescriptions.Test` (non-empty `defined_slots` path): store the
defined slots in `self._slots` and enter `_GetSlotDescription`, which sends
the first request and assigns no attribute. -/
def Test (definedSlots : List Nat) : Fixture :=
  { slotsAttr := some definedSlots, currentIndexAttr := none }

/-- `GetSlotDescriptions._GetNextSlot`: `self._slots.pop(0)` then re-enter
`_GetSlotDescription`; the only attribute change is dropping the head of
`self._slots`. -/
def _GetNextSlot (f : Fixture) : Fixture :=
  { f with slotsAttr := f.slotsAttr.map (fun s => s.tail) }

/-- `GetSlotDescriptions.VerifyResult`: on an acked response whose
`slot_number` field differs from the requested slot `self._slots[0]`, the
warning text interpolates `self._current_index`; reading an attribute that
was never assigned is an `AttributeError`.  `Except.ok` carries the warning
(if any) that the body emits. -/
def VerifyResult (f : Fixture) (wasAcked : Bool) (slotNumber : Nat) :
    Except String (Option String) :=
  if !wasAcked then
    Except.ok none
  else
    match f.slotsAttr with
    | none => Except.error "AttributeError: _slots"
    | some slots =>
      match slots.head? with
      | none => Except.error "IndexError: list index out of range"
      | some s0 =>
        if s0 ≠ slotNumber then
          match f.currentIndexAttr with
          | none => Except.error "AttributeError: _current_index"
          | some ci =>
            Except.ok (some ("Requested descriptionfor slot " ++
              toString ci ++ ", message returned slot " ++
              toString slotNumber))
        else
          Except.ok none

end GetSlotDescriptions

end TestDefinitions

open RDMConstants TestDefinitions

set_option maxRecDepth 1000000
set_option maxHeartbeats 4000000
set_option linter.unusedVariables false

/-- Claim C5: with a language-capabilities list of exactly two languages
whose first entry equals the currently reported language, the
`SetLanguage.Test` selection falls back to index 2 of that two-element list,
which is out of range (`List.get?` returns `none`, Python raises
`IndexError`). -/
theorem setLanguage_fallback_index_out_of_range :
    ∃ (caps : List String) (current : String),
      caps.length = 2 ∧ caps.get? 0 = some current ∧
      setLanguageNewLanguage caps current = none :=
  ⟨["en", "fr"], "en", rfl, rfl, rfl⟩

/-- Counterexample to claim C4: when the acked `PROXIED_DEVICE_COUNT`
response reports `device_count = 1` while the `proxied_devices` fact is the
empty list and `list_changed` is clear, `VerifyResult` marks the test FAILED
and records no warning. -/
theorem proxiedCount_mismatch_counterexample :
    proxiedDeviceCountVerifyResult true (some []) false 1 =
      VerifyEffect.failed
        "Proxied device count doesn\x27t match number of devices returned" ∧
    ∀ msg, proxiedDeviceCountVerifyResult true (some []) false 1 ≠
      VerifyEffect.warning msg := by
  have hf : proxiedDeviceCountVerifyResult true (some []) false 1 =
      VerifyEffect.failed
        "Proxied device count doesn\x27t match number of devices returned" :=
    rfl
  exact ⟨hf, fun msg h => by rw [hf] at h; exact VerifyEffect.noConfusion h⟩

/-- Claim C4 amended: when the responder's reported proxied-device count is
inconsistent with the length of the separately reported proxied-device list
(with the list-changed flag clear), `GetProxiedDeviceCount.VerifyResult`
marks the test FAILED; a warning is recorded only in the separate case where
the list itself was never provided.  (A sensor value outside its declared
range, by contrast, is indeed only a warning.) -/
theorem proxiedCount_mismatch_sets_failed (devices : List Nat)
    (deviceCount : Nat) (h : deviceCount ≠ devices.length) :
    proxiedDeviceCountVerifyResult true (some devices) false deviceCount =
      VerifyEffect.failed
        "Proxied device count doesn\x27t match number of devices returned" ∧
    (∀ v lo hi : Int, v < lo →
      _CheckValueWithinRange v lo hi =
        VerifyEffect.warning "value not within range") := by
  constructor
  · simp [proxiedDeviceCountVerifyResult, h]
  · intro v lo hi hv
    simp [_CheckValueWithinRange]
    intro hcon
    omega

/-- Witness for `proxiedCount_mismatch_sets_failed` at `device_count = 1`
against an empty proxied-device list. -/
theorem proxiedCount_mismatch_sets_failed_witness :
    proxiedDeviceCountVerifyResult true (some []) false 1 =
      VerifyEffect.failed
        "Proxied device count doesn\x27t match number of devices returned" ∧
    (∀ v lo hi : Int, v < lo →
      _CheckValueWithinRange v lo hi =
        VerifyEffect.warning "value not within range") :=
  proxiedCount_mismatch_sets_failed [] 1 (by decide)

/-- Counterexample to claim C7: the number of `SLOT_DEFINITIONS` entries
written with assignment syntax is not two. -/
theorem slotDefinitions_assign_count_counterexample :
    ¬ slotDefinitionsAssignEntries.length = 2 := by decide

/-- Claim C7 amended: exactly three entries of the slot-definition constant
table — `SD_POWER_CONTROL`, `SD_FAN_CONTROL` and `SD_HEATER_CONTROL` — are
written with assignment syntax inconsistent with the rest of the table. -/
theorem slotDefinitions_three_assign_entries :
    slotDefinitionsAssignEntries =
      [("SD_POWER_CONTROL", 0x0505), ("SD_FAN_CONTROL", 0x0506),
       ("SD_HEATER_CONTROL", 0x0507)] ∧
    slotDefinitionsAssignEntries.length = 3 := by
  exact ⟨rfl, rfl⟩

/-- Claim C8: for every stored `device_label` fact value, the `OldValue`
method of each device-label SET test discards the property lookup and
returns `None`, so the restore-previous-label step never receives the
original label. -/
theorem deviceLabel_oldValue_discards_stored_label (store : PropertyStore)
    (v : String) (h : Property store "device_label" = some v) :
    SetDeviceLabel.OldValue store = none ∧
    SetFullSizeDeviceLabel.OldValue store = none ∧
    SetNonAsciiDeviceLabel.OldValue store = none ∧
    SetEmptyDeviceLabel.OldValue store = none ∧
    SetOversizedDeviceLabel.OldValue store = none ∧
    SetDeviceLabel.OldValue store ≠ some v := by
  refine ⟨rfl, rfl, rfl, rfl, rfl, fun hc => ?_⟩
  exact Option.noConfusion hc

/-- Witness for `deviceLabel_oldValue_discards_stored_label` on a store whose
`device_label` fact is `"old label"`. -/
theorem deviceLabel_oldValue_discards_witness :
    SetDeviceLabel.OldValue sampleLabelStore = none ∧
    SetFullSizeDeviceLabel.OldValue sampleLabelStore = none ∧
    SetNonAsciiDeviceLabel.OldValue sampleLabelStore = none ∧
    SetEmptyDeviceLabel.OldValue sampleLabelStore = none ∧
    SetOversizedDeviceLabel.OldValue sampleLabelStore = none ∧
    SetDeviceLabel.OldValue sampleLabelStore ≠ some "old label" :=
  deviceLabel_oldValue_discards_stored_label sampleLabelStore "old label" rfl

theorem dictLookup_dictInsert (acc : List (Nat × String)) (k c : Nat)
    (v : String) :
    dictLookup (dictInsert acc k v) c =
      if c = k then some v else dictLookup acc c := by
  induction acc with
  | nil =>
    by_cases h : c = k
    · subst h
      simp [dictInsert, dictLookup, List.find?]
    · have h1 : (k == c) = false := beq_eq_false_iff_ne.mpr (Ne.symm h)
      simp [dictInsert, dictLookup, List.find?, h1, h]
  | cons p rest ih =>
    by_cases hpk : p.1 = k
    · have hbk : (p.1 == k) = true := beq_iff_eq.mpr hpk
      simp only [dictInsert, hbk, if_true]
      by_cases h : c = k
      · subst h
        simp [dictLookup, List.find?]
      · have h1 : (k == c) = false := beq_eq_false_iff_ne.mpr (Ne.symm h)
        have h2 : (p.1 == c) = false := by rw [hpk]; exact h1
        simp [dictLookup, List.find?, h1, h2, h]
    · have hbk : (p.1 == k) = false := beq_eq_false_iff_ne.mpr hpk
      simp only [dictInsert, hbk, Bool.false_eq_true, if_false]
      by_cases hpc : p.1 = c
      · have h1 : (p.1 == c) = true := beq_iff_eq.mpr hpc
        have hck : ¬c = k := fun he => hpk (by rw [hpc, he])
        simp [dictLookup, List.find?, h1, hck]
      · have h1 : (p.1 == c) = false := beq_eq_false_iff_ne.mpr hpc
        simp only [dictLookup, List.find?, h1]
        simpa [dictLookup] using ih

theorem getLast?_cons_isSome {α : Type} (x : α) (xs : List α) :
    ∃ y, (x :: xs).getLast? = some y := by
  induction xs generalizing x with
  | nil => exact ⟨x, rfl⟩
  | cons z zs ih =>
    obtain ⟨y, hy⟩ := ih z
    exact ⟨y, by rw [List.getLast?_cons_cons, hy]⟩

theorem dictLookup_foldl_dictInsert (t : List (String × Nat)) :
    ∀ (acc : List (Nat × String)) (c : Nat),
      dictLookup
        (t.foldl (fun output kv => dictInsert output kv.2 kv.1) acc) c =
      ((t.filter (fun nc => nc.2 == c)).getLast?).elim (dictLookup acc c)
        (fun nc => some nc.1) := by
  induction t with
  | nil => intro acc c; rfl
  | cons hd rest ih =>
    intro acc c
    rw [List.foldl_cons, ih]
    by_cases h : hd.2 = c
    · rw [List.filter_cons_of_pos (by simpa using h)]
      cases hrf : rest.filter (fun nc => nc.2 == c) with
      | nil =>
        simp [dictLookup_dictInsert, h]
      | cons x xs =>
        obtain ⟨y, hy⟩ := getLast?_cons_isSome x xs
        rw [List.getLast?_cons_cons, hy]
        rfl
    · rw [List.filter_cons_of_neg (by simpa using h),
        dictLookup_dictInsert, if_neg (fun hc => h hc.symm)]

/-- Counterexample to claim C3: `_ReverseDict` accepts a source holding two
distinct names with the same code — construction succeeds and returns a
reverse table in which the first name has been silently shadowed by the
second, rather than failing fast. -/
theorem reverseDict_duplicate_not_rejected_counterexample :
    _ReverseDict [("NAME_A", 5), ("NAME_B", 5)] = [(5, "NAME_B")] ∧
    dictLookup (_ReverseDict [("NAME_A", 5), ("NAME_B", 5)]) 5 ≠
      some "NAME_A" := ⟨rfl, by decide⟩

/-- Claim C3 amended: `_ReverseDict` never rejects its input.  For every
source table, looking up a code in the reverse table yields the name of the
last `(name, code)` pair carrying that code — so with duplicate codes the
later entry silently shadows the earlier one. -/
theorem reverseDict_silently_shadows :
    (∀ (t : List (String × Nat)) (c : Nat),
      dictLookup (_ReverseDict t) c =
        ((t.filter (fun nc => nc.2 == c)).getLast?).elim none
          (fun nc => some nc.1)) ∧
    _ReverseDict [("NAME_C", 7), ("NAME_D", 7)] = [(7, "NAME_D")] := by
  refine ⟨fun t c => ?_, rfl⟩
  have h := dictLookup_foldl_dictInsert t [] c
  simpa [_ReverseDict, dictLookup] using h

theorem natsNodup_sound : ∀ l : List Nat, natsNodup l = true → l.Nodup := by
  intro l
  induction l with
  | nil => intro _; exact List.nodup_nil
  | cons x rest ih =>
    intro h
    simp only [natsNodup, Bool.and_eq_true, Bool.not_eq_true'] at h
    refine List.Nodup.cons (fun hx => ?_) (ih h.2)
    have hc : rest.contains x = true := by
      rw [List.contains_eq_any_beq]
      exact List.any_eq_true.mpr ⟨x, hx, by simp⟩
    rw [h.1] at hc
    exact Bool.noConfusion hc

theorem tableNamesNodup (t : List (String × Nat))
    (h : natsNodup (t.map (fun nc => strKey nc.1)) = true) :
    (t.map (fun nc => nc.1)).Nodup := by
  have h1 := natsNodup_sound _ h
  rw [show (t.map (fun nc => strKey nc.1)) =
      (t.map (fun nc => nc.1)).map strKey by rw [List.map_map]; rfl] at h1
  exact h1.of_map strKey

theorem forwardLookup_of_namesNodup (t : List (String × Nat))
    (h : (t.map (fun nc => nc.1)).Nodup) :
    ∀ nc ∈ t, forwardLookup t nc.1 = some nc.2 := by
  induction t with
  | nil => intro nc hmem; cases hmem
  | cons hd rest ih =>
    intro nc hmem
    simp only [List.map_cons, List.nodup_cons] at h
    rcases List.mem_cons.mp hmem with rfl | hmem2
    · simp [forwardLookup, List.find?]
    · have hne : hd.1 ≠ nc.1 := fun he =>
        h.1 (he ▸ List.mem_map_of_mem (fun p => p.1) hmem2)
      have hb : (hd.1 == nc.1) = false := beq_eq_false_iff_ne.mpr hne
      simp only [forwardLookup, List.find?, hb]
      exact ih h.2 nc hmem2

theorem filter_code_nil_of_not_mem (c : Nat) :
    ∀ t : List (String × Nat), c ∉ t.map (fun nc => nc.2) →
      t.filter (fun nc => nc.2 == c) = [] := by
  intro t
  induction t with
  | nil => intro _; rfl
  | cons hd rest ih =>
    intro h
    simp only [List.map_cons, List.mem_cons, not_or] at h
    have hne : hd.2 ≠ c := fun he => h.1 he.symm
    rw [List.filter_cons_of_neg (by simpa using hne), ih h.2]

theorem filter_code_eq_single (t : List (String × Nat))
    (h : (t.map (fun nc => nc.2)).Nodup) :
    ∀ nc ∈ t, t.filter (fun p => p.2 == nc.2) = [nc] := by
  induction t with
  | nil => intro nc hmem; cases hmem
  | cons hd rest ih =>
    intro nc hmem
    simp only [List.map_cons, List.nodup_cons] at h
    rcases List.mem_cons.mp hmem with rfl | hmem2
    · rw [List.filter_cons_of_pos (by simp),
        filter_code_nil_of_not_mem nc.2 rest h.1]
    · have hne : hd.2 ≠ nc.2 := fun he =>
        h.1 (he ▸ List.mem_map_of_mem (fun p => p.2) hmem2)
      rw [List.filter_cons_of_neg (by simpa using hne), ih h.2 nc hmem2]

theorem reverseLookup_of_codesNodup (t : List (String × Nat))
    (h : (t.map (fun nc => nc.2)).Nodup) :
    ∀ nc ∈ t, dictLookup (_ReverseDict t) nc.2 = some nc.1 := by
  intro nc hmem
  have h1 : dictLookup (_ReverseDict t) nc.2 =
      ((t.filter (fun p => p.2 == nc.2)).getLast?).elim
        (dictLookup [] nc.2) (fun p => some p.1) :=
    dictLookup_foldl_dictInsert t [] nc.2
  rw [h1, filter_code_eq_single t h nc hmem]
  rfl

theorem tableBijectiveP_of_checks (t : List (String × Nat))
    (hnames : natsNodup (t.map (fun nc => strKey nc.1)) = true)
    (hcodes : natsNodup (t.map (fun nc => nc.2)) = true) :
    tableBijectiveP t (_ReverseDict t) := by
  have h1 := tableNamesNodup t hnames
  have h2 := natsNodup_sound _ hcodes
  exact ⟨fun nc hmem => ⟨forwardLookup_of_namesNodup t h1 nc hmem,
    reverseLookup_of_codesNodup t h2 nc hmem⟩, h2⟩

/-- Claim C1: for every constant table (sensor types, units, prefixes,
product categories, product details, slot types, slot definitions,
preset-programmed states, merge modes) and every `(name, code)` pair in it,
the reverse table built by `_ReverseDict` maps the code back to the name,
the forward table maps the name to the code, and no two names in the same
table share a code. -/
theorem constantTables_bijective :
    tableBijectiveP SENSOR_TYPES SENSOR_TYPE_TO_NAME ∧
    tableBijectiveP UNITS UNIT_TO_NAME ∧
    tableBijectiveP PREFIXES PREFIX_TO_NAME ∧
    tableBijectiveP PRODUCT_CATEGORIES PRODUCT_CATEGORY_TO_NAME ∧
    tableBijectiveP PRODUCT_DETAIL_IDS PRODUCT_DETAIL_IDS_TO_NAME ∧
    tableBijectiveP SLOT_TYPES SLOT_TYPE_TO_NAME ∧
    tableBijectiveP SLOT_DEFINITIONS SLOT_DEFINITION_TO_NAME ∧
    tableBijectiveP PRESET_PROGRAMMED PRESET_PROGRAMMER_TO_NAME ∧
    tableBijectiveP MERGE_MODE MERGE_MODE_TO_NAME :=
  ⟨tableBijectiveP_of_checks SENSOR_TYPES (by rfl) (by rfl),
   tableBijectiveP_of_checks UNITS (by rfl) (by rfl),
   tableBijectiveP_of_checks PREFIXES (by rfl) (by rfl),
   tableBijectiveP_of_checks PRODUCT_CATEGORIES (by rfl) (by rfl),
   tableBijectiveP_of_checks PRODUCT_DETAIL_IDS (by rfl) (by rfl),
   tableBijectiveP_of_checks SLOT_TYPES (by rfl) (by rfl),
   tableBijectiveP_of_checks SLOT_DEFINITIONS (by rfl) (by rfl),
   tableBijectiveP_of_checks PRESET_PROGRAMMED (by rfl) (by rfl),
   tableBijectiveP_of_checks MERGE_MODE (by rfl) (by rfl)⟩

theorem classify_mem_aux (banned mandatory : List Nat) :
    ∀ (paramIds : List Nat) (acc : List Nat × List Nat),
      (∀ x, x ∈ acc.2 ↔ x ∈ acc.1 ∧ 0x8000 ≤ x ∧ x < 0xffe0) →
      ∀ x,
        x ∈ (paramIds.foldl (supportedParamStep banned mandatory) acc).2 ↔
        x ∈ (paramIds.foldl (supportedParamStep banned mandatory) acc).1 ∧
          0x8000 ≤ x ∧ x < 0xffe0 := by
  intro paramIds
  induction paramIds with
  | nil => intro acc h x; exact h x
  | cons p rest ih =>
    intro acc h x
    rw [List.foldl_cons]
    apply ih
    intro y
    by_cases hb : p ∈ banned
    · simpa [supportedParamStep, hb] using h y
    by_cases hm : p ∈ mandatory
    · simpa [supportedParamStep, hb, hm] using h y
    by_cases hr : (0x8000 : Nat) ≤ p ∧ p < 0xffe0
    · by_cases hyp : y = p
      · subst hyp
        simp [supportedParamStep, hb, hm, hr, hr.1, hr.2]
      · simp [supportedParamStep, hb, hm, hr, hyp, h y]
    · simp [supportedParamStep, hb, hm, hr]
      constructor
      · intro hy
        have hy2 := (h y).mp hy
        exact ⟨Or.inl hy2.1, hy2.2⟩
      · rintro ⟨hy | rfl, hR⟩
        · exact (h y).mpr ⟨hy, hR⟩
        · exact absurd hR hr

/-- Claim C6: every parameter id that `GetSupportedParameters.VerifyResult`
records as supported is classified as manufacturer-specific (appended to
`manufacturer_parameters`) iff it lies in the reserved manufacturer range
`RDM_MANUFACTURER_PID_MIN = 0x8000` to `RDM_MANUFACTURER_PID_MAX = 0xFFDF`
inclusive. -/
theorem supportedParams_manufacturer_range
    (banned mandatory paramIds : List Nat) (paramId : Nat)
    (h : paramId ∈ (classifySupportedParams banned mandatory paramIds).1) :
    paramId ∈ (classifySupportedParams banned mandatory paramIds).2 ↔
      RDM_MANUFACTURER_PID_MIN ≤ paramId ∧
        paramId ≤ RDM_MANUFACTURER_PID_MAX := by
  have haux := classify_mem_aux banned mandatory paramIds ([], [])
    (by simp) paramId
  unfold classifySupportedParams at haux h ⊢
  rw [haux]
  unfold RDM_MANUFACTURER_PID_MIN RDM_MANUFACTURER_PID_MAX
  constructor
  · rintro ⟨-, h1, h2⟩
    exact ⟨h1, by omega⟩
  · rintro ⟨h1, h2⟩
    exact ⟨h, h1, by omega⟩

/-- Witness for `supportedParams_manufacturer_range`: pid `0x8000` offered in
the params list (with the real `BANNED_PID_VALUES`) is recorded as supported
and classified manufacturer-specific. -/
theorem supportedParams_manufacturer_range_witness :
    0x8000 ∈ (classifySupportedParams BANNED_PID_VALUES [] [0x8000]).2 ↔
      RDM_MANUFACTURER_PID_MIN ≤ 0x8000 ∧
        0x8000 ≤ RDM_MANUFACTURER_PID_MAX :=
  supportedParams_manufacturer_range BANNED_PID_VALUES [] [0x8000] 0x8000
    (by decide)

theorem checkForSubDevice_aux (maxValid deviceCount : Nat)
    (resp : Nat → Bool) :
    ∀ (k currentIndex : Nat) (subDevices : List Nat),
      maxValid - currentIndex ≤ k →
      subDevices.length ≤ deviceCount →
      (∀ indices reqs,
        _CheckForSubDevice maxValid deviceCount resp subDevices
            currentIndex = (FSDOutcome.passed indices, reqs) →
          indices.length = deviceCount) ∧
      (∀ msg reqs,
        _CheckForSubDevice maxValid deviceCount resp subDevices
            currentIndex = (FSDOutcome.failed msg, reqs) →
        ∃ found, found < deviceCount ∧
          msg = "Only found " ++ toString found ++ " of " ++
            toString deviceCount ++ " sub devices") := by
  intro k
  induction k with
  | zero =>
    intro ci sd hk hlen
    constructor
    · intro indices reqs heq
      rw [_CheckForSubDevice] at heq
      split_ifs at heq with h1 h2 h3
      · simp at heq
      · simp only [Prod.mk.injEq, FSDOutcome.passed.injEq] at heq
        rw [← heq.1]
        exact h1
      · simp at heq
      · omega
    · intro msg reqs heq
      rw [_CheckForSubDevice] at heq
      split_ifs at heq with h1 h2 h3
      · simp at heq
      · simp at heq
      · simp only [Prod.mk.injEq, FSDOutcome.failed.injEq] at heq
        exact ⟨sd.length, by omega, heq.1.symm⟩
      · omega
  | succ k ih =>
    intro ci sd hk hlen
    constructor
    · intro indices reqs heq
      rw [_CheckForSubDevice] at heq
      split_ifs at heq with h1 h2 h3
      · simp at heq
      · simp only [Prod.mk.injEq, FSDOutcome.passed.injEq] at heq
        rw [← heq.1]
        exact h1
      · simp at heq
      · have hk' : maxValid - (ci + 1) ≤ k := by omega
        have hlen' :
            (if resp (ci + 1) then sd ++ [ci + 1] else sd).length ≤
              deviceCount := by
          by_cases hresp : resp (ci + 1) = true <;> simp [hresp] <;> omega
        simp only [Prod.mk.injEq] at heq
        obtain ⟨ha, hb⟩ := heq
        refine (ih (ci + 1) (if resp (ci + 1) then sd ++ [ci + 1] else sd)
            hk' hlen').1 indices
          (_CheckForSubDevice maxValid deviceCount resp
            (if resp (ci + 1) then sd ++ [ci + 1] else sd) (ci + 1)).2 ?_
        rw [← ha]
    · intro msg reqs heq
      rw [_CheckForSubDevice] at heq
      split_ifs at heq with h1 h2 h3
      · simp at heq
      · simp at heq
      · simp only [Prod.mk.injEq, FSDOutcome.failed.injEq] at heq
        exact ⟨sd.length, by omega, heq.1.symm⟩
      · have hk' : maxValid - (ci + 1) ≤ k := by omega
        have hlen' :
            (if resp (ci + 1) then sd ++ [ci + 1] else sd).length ≤
              deviceCount := by
          by_cases hresp : resp (ci + 1) = true <;> simp [hresp] <;> omega
        simp only [Prod.mk.injEq] at heq
        obtain ⟨ha, hb⟩ := heq
        refine (ih (ci + 1) (if resp (ci + 1) then sd ++ [ci + 1] else sd)
            hk' hlen').2 msg
          (_CheckForSubDevice maxValid deviceCount resp
            (if resp (ci + 1) then sd ++ [ci + 1] else sd) (ci + 1)).2 ?_
        rw [← ha]

/-- Claim C2: the `FindSubDevices` chain, which queries increasing sub-device
indices expecting NACK `NR_SUB_DEVICE_OUT_OF_RANGE` for absent indices and
ACK for present ones, stops exactly when the number of acknowledged indices
equals the discovered `sub_device_count`; when that count is 0 it yields
NOT_RUN and sends no request; and when the index reaches the maximum valid
sub-device index before the expected count is reached it yields FAILED with
message `Only found N of M sub devices` (`N` < `M`). -/
theorem findSubDevices_locate_spec (maxValid deviceCount : Nat)
    (resp : Nat → Bool) :
    (deviceCount = 0 →
      FindSubDevicesTest maxValid deviceCount resp =
        (FSDOutcome.notRun " No sub devices declared" [], [])) ∧
    (∀ indices reqs,
      FindSubDevicesTest maxValid deviceCount resp =
        (FSDOutcome.passed indices, reqs) →
      indices.length = deviceCount) ∧
    (∀ msg reqs,
      FindSubDevicesTest maxValid deviceCount resp =
        (FSDOutcome.failed msg, reqs) →
      ∃ found, found < deviceCount ∧
        msg = "Only found " ++ toString found ++ " of " ++
          toString deviceCount ++ " sub devices") := by
  refine ⟨?_, ?_, ?_⟩
  · intro h0
    subst h0
    rw [FindSubDevicesTest, _CheckForSubDevice]
    simp
  · intro indices reqs heq
    unfold FindSubDevicesTest at heq
    exact (checkForSubDevice_aux maxValid deviceCount resp maxValid 0 []
      (by omega) (by simp)).1 indices reqs heq
  · intro msg reqs heq
    unfold FindSubDevicesTest at heq
    exact (checkForSubDevice_aux maxValid deviceCount resp maxValid 0 []
      (by omega) (by simp)).2 msg reqs heq

/-- Witness for `findSubDevices_locate_spec`: with `sub_device_count = 0`
the chain reports NOT_RUN and queries nothing. -/
theorem findSubDevices_locate_spec_witness :
    FindSubDevicesTest 512 0 (fun _ => false) =
      (FSDOutcome.notRun " No sub devices declared" [], []) :=
  (findSubDevices_locate_spec 512 0 (fun _ => false)).1 rfl

theorem getPersonality_all_acked_fails :
    ∀ (k currentIndex : Nat) (ps : List Nat),
      255 - currentIndex ≤ k → currentIndex < 255 →
      _GetPersonality 255 (fun _ => true) ps currentIndex =
        GPOutcome.failed "Could not find all personalities" := by
  intro k
  induction k with
  | zero =>
    intro ci ps hk hci
    exact absurd hci (by omega)
  | succ k ih =>
    intro ci ps hk hci
    rw [_GetPersonality]
    have hnot : ¬(255 < ci + 1) := by omega
    by_cases h254 : MAX_PERSONALITY_NUMBER ≤ ci + 1
    · simp [hnot, h254]
    · have hci' : ci + 1 < 255 := by
        simp [MAX_PERSONALITY_NUMBER] at h254
        omega
      have hk' : 255 - (ci + 1) ≤ k := by omega
      simp only [hnot, h254, if_false]
      exact ih (ci + 1) (ps ++ [ci + 1]) hk' hci'

theorem getPersonality_count255_no_success :
    ∀ (k currentIndex : Nat) (ps : List Nat) (resp : Nat → Bool),
      255 - currentIndex ≤ k → currentIndex < 255 →
      (_GetPersonality 255 resp ps currentIndex =
          GPOutcome.failed "Could not find all personalities") ∨
      (∃ j, _GetPersonality 255 resp ps currentIndex =
          GPOutcome.unexpectedResponse j) := by
  intro k
  induction k with
  | zero =>
    intro ci ps resp hk hci
    exact absurd hci (by omega)
  | succ k ih =>
    intro ci ps resp hk hci
    rw [_GetPersonality]
    have hnot : ¬(255 < ci + 1) := by omega
    by_cases h254 : MAX_PERSONALITY_NUMBER ≤ ci + 1
    · simp [hnot, h254]
    · have hci' : ci + 1 < 255 := by
        simp [MAX_PERSONALITY_NUMBER] at h254
        omega
      have hk' : 255 - (ci + 1) ≤ k := by omega
      by_cases hresp : resp (ci + 1) = true
      · simp only [hnot, h254, hresp, if_false, if_true]
        exact ih (ci + 1) (ps ++ [ci + 1]) resp hk' hci'
      · right
        refine ⟨ci + 1, ?_⟩
        simp [hnot, h254, hresp]

/-- Claim C10: when the discovered `personality_count` fact equals 255, the
`GetPersonalities` chain always terminates with FAILED
(`Could not find all personalities`) — in particular when the responder
acknowledges every personality-description request — because the index guard
`current index >= MAX_PERSONALITY_NUMBER` is reached before the success
condition `current index > personality_count` can ever hold; it never
reaches the passed or not-run outcomes. -/
theorem getPersonalities_count255_always_fails :
    (GetPersonalitiesTest 255 (fun _ => true) =
      GPOutcome.failed "Could not find all personalities") ∧
    (∀ resp : Nat → Bool,
      GetPersonalitiesTest 255 resp =
          GPOutcome.failed "Could not find all personalities" ∨
      ∃ j, GetPersonalitiesTest 255 resp =
          GPOutcome.unexpectedResponse j) := by
  constructor
  · exact getPersonality_all_acked_fails 255 0 [] (by omega) (by omega)
  · intro resp
    exact getPersonality_count255_no_success 255 0 [] resp (by omega)
      (by omega)

theorem slotDesc_iterate_currentIndex_none (definedSlots : List Nat) :
    ∀ n : Nat,
      (GetSlotDescriptions._GetNextSlot^[n]
        (GetSlotDescriptions.Test definedSlots)).currentIndexAttr = none := by
  intro n
  induction n with
  | zero => rfl
  | succ n ih =>
    rw [Function.iterate_succ_apply']
    exact ih

/-- Claim C9: in any state the `GetSlotDescriptions` fixture can reach (its
`Test` entry followed by any number of `_GetNextSlot` steps), the attribute
`_current_index` is unassigned, so when an acked slot-description response
carries a `slot_number` different from the requested slot, the warning
branch of `VerifyResult` raises `AttributeError` instead of emitting the
warning. -/
theorem slotDescriptions_mismatch_attribute_error (definedSlots : List Nat)
    (n slotNumber s0 : Nat)
    (hhead : ((GetSlotDescriptions._GetNextSlot^[n]
        (GetSlotDescriptions.Test definedSlots)).slotsAttr.bind
        List.head?) = some s0)
    (hne : s0 ≠ slotNumber) :
    GetSlotDescriptions.VerifyResult
        (GetSlotDescriptions._GetNextSlot^[n]
          (GetSlotDescriptions.Test definedSlots)) true slotNumber =
      Except.error "AttributeError: _current_index" := by
  have hci := slotDesc_iterate_currentIndex_none definedSlots n
  cases hsl : (GetSlotDescriptions._GetNextSlot^[n]
      (GetSlotDescriptions.Test definedSlots)).slotsAttr with
  | none =>
    rw [hsl] at hhead
    simp at hhead
  | some slots =>
    rw [hsl] at hhead
    simp only [Option.bind] at hhead
    simp [GetSlotDescriptions.VerifyResult, hsl, hhead, hne, hci]

/-- Witness for `slotDescriptions_mismatch_attribute_error`: right after
`Test [1, 2]`, an acked response reporting slot 5 instead of slot 1 hits the
`AttributeError`. -/
theorem slotDescriptions_mismatch_attribute_error_witness :
    GetSlotDescriptions.VerifyResult
        (GetSlotDescriptions._GetNextSlot^[0]
          (GetSlotDescriptions.Test [1, 2])) true 5 =
      Except.error "AttributeError: _current_index" :=
  slotDescriptions_mismatch_attribute_error [1, 2] 0 5 1 rfl (by decide)
